import Mathlib

/-!
Verification of the Premalatha Collections formatter service
(`src/ai_api.py` and `src/test.py`): a FastAPI app exposing `GET /health`,
plus a Telegram bot with handlers `start` (`/start`, `/menu`),
`handle_callback` (inline-button selection) and `handle_message`
(free-text turns), which forward user text to a remote LLM formatter
(`run_single_formatter`, `run_combo_formatter`, `run_instagram_crew`)
and echo the post-processed result.

The embedding models:
  * Python `str.replace` / `str.strip` on `List Char` (`pyReplace`,
    `pyStrip`; `strip` is modelled over the ASCII whitespace characters);
  * the post-processing applied to the LLM result string in each
    `run_*_formatter` (the `return` expressions);
  * the per-user session dictionary `user_sessions` as a map
    `Nat → Option Session`, one session type per file, and the bot
    handlers as state-transition functions; the remote LLM call is an
    oracle parameter `String → String → Except String String` (mode and
    input to either a result string or a raised exception's message);
  * the registered HTTP routes and the `/health` response bodies.
-/

/-- Python ASCII whitespace, the characters removed by `str.strip()`
(restricted to the ASCII range; Unicode-only whitespace is not modelled). -/
def pyIsSpace (c : Char) : Bool :=
  c = ' ' || c = '\t' || c = '\n' || c = '\r' || c = '\u000B' || c = '\u000C'

/-- Auxiliary scanner for Python `str.replace(old, new)`: `skip` counts
characters still to drop because they were part of an already-replaced
occurrence of `old`; at `skip = 0` the scanner emits `new` and skips
`old.length` characters whenever `old` is a prefix of the rest, and
otherwise copies one character. This is Python's left-to-right,
non-overlapping replacement. -/
def pyRepAux (old new : List Char) : Nat → List Char → List Char
  | _, [] => []
  | Nat.succ k, _ :: rest => pyRepAux old new k rest
  | 0, c :: rest =>
    if old ≠ [] ∧ old.isPrefixOf (c :: rest) then
      new ++ pyRepAux old new (old.length - 1) rest
    else
      c :: pyRepAux old new 0 rest

/-- Python `s.replace(old, new)` (for nonempty `old`, the only use here). -/
def pyReplace (old new s : List Char) : List Char :=
  pyRepAux old new 0 s

/-- Python `s.strip()`: remove trailing then leading whitespace. -/
def pyStrip (s : List Char) : List Char :=
  ((s.reverse.dropWhile pyIsSpace).reverse).dropWhile pyIsSpace

/-- Decidable substring test on character lists (`pat` occurs contiguously). -/
def hasSub (pat : List Char) : List Char → Bool
  | [] => pat.isEmpty
  | c :: rest => pat.isPrefixOf (c :: rest) || hasSub pat rest

namespace AiApi

/-- Post-processing of the LLM string in `ai_api.py`'s
`run_single_formatter` (lines 73-74): `str(result).strip()` then
`.replace("\\n", "\n").replace('"', '').replace("Output:", "")
.replace("Result:", "").strip()`. -/
def run_single_formatter_post (s : List Char) : List Char :=
  pyStrip (pyReplace ['R', 'e', 's', 'u', 'l', 't', ':'] []
    (pyReplace ['O', 'u', 't', 'p', 'u', 't', ':'] []
      (pyReplace ['"'] []
        (pyReplace ['\\', 'n'] ['\n'] (pyStrip s)))))

/-- Post-processing in `ai_api.py`'s `run_combo_formatter` (lines 101-102);
textually identical to the single-formatter pipeline. -/
def run_combo_formatter_post (s : List Char) : List Char :=
  run_single_formatter_post s

/-- Post-processing in `ai_api.py`'s `run_instagram_crew` (lines 123-124):
strip, `"\\n" → "\n"`, drop `"`, strip. -/
def run_instagram_crew_post (s : List Char) : List Char :=
  pyStrip (pyReplace ['"'] [] (pyReplace ['\\', 'n'] ['\n'] (pyStrip s)))

/-- HTTP routes registered on the FastAPI `app` in `ai_api.py`:
only `@app.get("/health")` (line 223). -/
def routes : List (String × String) := [("GET", "/health")]

/-- Response of `health` in `ai_api.py` (lines 223-225): FastAPI's default
200 status and the returned dict, as an ordered field list. -/
def health_response : Nat × List (String × String) :=
  (200, [("status", "ok"), ("message", "Server is awake")])

end AiApi

namespace TestPy

/-- Post-processing of the LLM string in `test.py`'s
`run_single_formatter` (lines 113-120): `str(result).replace("\\n", " ")
.replace('"', "").replace("Output:", "").replace("Result:", "").strip()`. -/
def run_single_formatter_post (s : List Char) : List Char :=
  pyStrip (pyReplace ['R', 'e', 's', 'u', 'l', 't', ':'] []
    (pyReplace ['O', 'u', 't', 'p', 'u', 't', ':'] []
      (pyReplace ['"'] []
        (pyReplace ['\\', 'n'] [' '] s))))

/-- Post-processing in `test.py`'s `run_combo_formatter` (lines 191-198);
textually identical to the single-formatter pipeline. -/
def run_combo_formatter_post (s : List Char) : List Char :=
  run_single_formatter_post s

/-- Post-processing in `test.py`'s `run_instagram_crew` (lines 241-246):
`"\\n" → "\n"`, drop `"`, strip. -/
def run_instagram_crew_post (s : List Char) : List Char :=
  pyStrip (pyReplace ['"'] [] (pyReplace ['\\', 'n'] ['\n'] s))

/-- HTTP routes registered on the FastAPI `app` in `test.py`:
only `@app.get("/health")` (line 355). -/
def routes : List (String × String) := [("GET", "/health")]

/-- Response of `health` in `test.py` (lines 355-356). -/
def health_response : Nat × List (String × String) :=
  (200, [("status", "ok")])

end TestPy

/-- The remote LLM call (`Crew(...).kickoff()` wrapped in the
`run_*_formatter` functions), abstracted as an oracle from the formatter
kind (`"single"`, `"combo"`, `"instagram"`) and the input text to either
the formatter's result string or the message of a raised exception. -/
def Oracle : Type := String → String → Except String String

/-- Assignment `user_sessions[u] = s` on the session mapping. -/
def setUser {α : Type} (σ : Nat → Option α) (u : Nat) (s : α) : Nat → Option α :=
  fun v => if v = u then some s else σ v

/-- Bot events dispatched by the registered handlers: `/start`, `/menu`
(both bound to `start`), an inline-button callback with its `callback_data`,
a non-command text message, and `/help` (bound to `help_command` in
`test.py`; not registered in `ai_api.py`, where command messages are
filtered out of `handle_message` by `~filters.COMMAND`). -/
inductive Op where
  | start (u : Nat)
  | menu (u : Nat)
  | callback (u : Nat) (data : String)
  | message (u : Nat) (text : String)
  | help (u : Nat)

/-- The id of the user an event comes from (`update.effective_user.id` or
`query.from_user.id`). -/
def Op.actor : Op → Nat
  | Op.start u => u
  | Op.menu u => u
  | Op.callback u _ => u
  | Op.message u _ => u
  | Op.help u => u

/-- Output of a message handler: the session mapping after the handler
runs, the remote-model calls it made (kind and input text, in order), and
the texts passed to `reply_text`. -/
structure MsgResult (α : Type) where
  state : Nat → Option α
  calls : List (String × String)
  replies : List String

namespace TestPy

/-- Per-user session dictionary of `test.py`: keys `description` and
`urls` (absent, modelled `none`, until first assigned), `step` and `mode`
(present from creation, possibly `None`). -/
structure Session where
  description : Option String
  urls : Option String
  step : Option String
  mode : Option String
deriving DecidableEq

/-- The `user_sessions` dictionary, keyed by Telegram user id. -/
abbrev State := Nat → Option Session

/-- Initial state: the module-level `user_sessions = {}`. -/
def initState : State := fun _ => none

/-- Handler `start` in `test.py` (lines 284-287), bound to `/start` and
`/menu`: `user_sessions[user_id] = {"step": None, "mode": None}`. -/
def start (u : Nat) (σ : State) : State :=
  setUser σ u ⟨none, none, none, none⟩

/-- Handler `handle_callback` in `test.py` (lines 306-320). -/
def handle_callback (u : Nat) (data : String) (σ : State) : State :=
  if data = "mode_single" ∨ data = "mode_combo" then
    setUser σ u ⟨some "", some "", some "desc",
      some (if data = "mode_single" then "single" else "combo")⟩
  else if data = "mode_instagram" then
    setUser σ u ⟨none, none, some "insta_single", some "instagram"⟩
  else if data = "reset" then
    setUser σ u ⟨none, none, none, none⟩
  else σ

/-- Handler `handle_message` in `test.py` (lines 322-353). The
`session["description"]` read in the `urls` branch is modelled as a lookup
with default `""` (in every reachable state with step `"urls"` the key is
present, so the default is never consulted). -/
def handle_message (oracle : Oracle) (u : Nat) (text : String) (σ : State) :
    MsgResult Session :=
  match σ u with
  | none => ⟨σ, [], []⟩
  | some s =>
    match s.step with
    | none => ⟨σ, [], []⟩
    | some st =>
      if s.mode = some "single" ∨ s.mode = some "combo" then
        if st = "desc" then
          ⟨setUser σ u ⟨some text, s.urls, some "urls", s.mode⟩, [],
            ["✅ Details saved.\nStep 2/2: Paste URLs (or 'none'):"]⟩
        else if st = "urls" then
          let combined := "DATA: " ++ s.description.getD "" ++ "\nURLS: " ++ text
          let kind := if s.mode = some "single" then "single" else "combo"
          let rep :=
            match oracle kind combined with
            | Except.ok res => res
            | Except.error e => "Error: " ++ e
          ⟨setUser σ u ⟨s.description, some text, none, s.mode⟩,
            [(kind, combined)], [rep, "Done!"]⟩
        else ⟨σ, [], []⟩
      else if s.mode = some "instagram" then
        let rep :=
          match oracle "instagram" text with
          | Except.ok res => res
          | Except.error e => "Error: " ++ e
        ⟨setUser σ u ⟨s.description, s.urls, none, s.mode⟩,
          [("instagram", text)], [rep, "Done!"]⟩
      else ⟨σ, [], []⟩

/-- Effect of one dispatched event on `user_sessions` (`help_command`
reads no session state). -/
def stepOp (oracle : Oracle) : Op → State → State
  | Op.start u => start u
  | Op.menu u => start u
  | Op.callback u d => handle_callback u d
  | Op.message u t => fun σ => (handle_message oracle u t σ).state
  | Op.help _ => fun σ => σ

/-- Effect of a sequence of events, oldest first. -/
def runOps (oracle : Oracle) (ops : List Op) (σ : State) : State :=
  ops.foldl (fun σ op => stepOp oracle op σ) σ

end TestPy

namespace AiApi

/-- Per-user session dictionary of `ai_api.py`: keys `step` and `mode`. -/
structure Session where
  step : Option String
  mode : Option String
deriving DecidableEq

/-- The `user_sessions` dictionary, keyed by Telegram user id. -/
abbrev State := Nat → Option Session

/-- Initial state: the module-level `user_sessions = {}`. -/
def initState : State := fun _ => none

/-- Handler `start` in `ai_api.py` (lines 172-175), bound to `/start` and
`/menu`. -/
def start (u : Nat) (σ : State) : State :=
  setUser σ u ⟨none, none⟩

/-- Handler `handle_callback` in `ai_api.py` (lines 177-193). -/
def handle_callback (u : Nat) (data : String) (σ : State) : State :=
  if data = "mode_single" then
    setUser σ u ⟨some "input", some "single"⟩
  else if data = "mode_combo" then
    setUser σ u ⟨some "input", some "combo"⟩
  else if data = "mode_instagram" then
    setUser σ u ⟨some "input", some "instagram"⟩
  else if data = "reset" then
    setUser σ u ⟨none, none⟩
  else σ

/-- Handler `handle_message` in `ai_api.py` (lines 195-221): any message
in an active session triggers one formatter call chosen by `mode`
(`else` branch falls through to `run_instagram_crew`), the reply echoes
the result or `"❌ Error: " + str(e)`, and `session["step"] = None` runs
on both paths. -/
def handle_message (oracle : Oracle) (u : Nat) (text : String) (σ : State) :
    MsgResult Session :=
  match σ u with
  | none => ⟨σ, [], ["Please select a mode from the menu:"]⟩
  | some s =>
    match s.step with
    | none => ⟨σ, [], ["Please select a mode from the menu:"]⟩
    | some _ =>
      let kind :=
        if s.mode = some "single" then "single"
        else if s.mode = some "combo" then "combo"
        else "instagram"
      let rep :=
        match oracle kind text with
        | Except.ok res => res
        | Except.error e => "❌ Error: " ++ e
      ⟨setUser σ u ⟨none, s.mode⟩, [(kind, text)], [rep, "--- ✅ Done ---"]⟩

/-- Effect of one dispatched event on `user_sessions` (`/help` is not a
registered handler in `ai_api.py` and commands are excluded from
`handle_message` by the `~filters.COMMAND` filter). -/
def stepOp (oracle : Oracle) : Op → State → State
  | Op.start u => start u
  | Op.menu u => start u
  | Op.callback u d => handle_callback u d
  | Op.message u t => fun σ => (handle_message oracle u t σ).state
  | Op.help _ => fun σ => σ

/-- Effect of a sequence of events, oldest first. -/
def runOps (oracle : Oracle) (ops : List Op) (σ : State) : State :=
  ops.foldl (fun σ op => stepOp oracle op σ) σ

end AiApi

/-- A fixed oracle used for concrete runs: the model always answers
`"OUT"`. -/
def okOracle : Oracle := fun _ _ => Except.ok "OUT"

/-- A fixed oracle used for concrete runs: the remote call always raises
an exception with message `"boom"`. -/
def errOracle : Oracle := fun _ _ => Except.error "boom"

/-- The `mode` labels a session can carry, in either file. -/
def ModeLabels : List (Option String) :=
  [none, some "single", some "combo", some "instagram"]

/-- The `step` labels a `test.py` session can carry. -/
def TestPy.StepLabels : List (Option String) :=
  [none, some "desc", some "urls", some "insta_single"]

/-- The `step` labels an `ai_api.py` session can carry. -/
def AiApi.StepLabels : List (Option String) :=
  [none, some "input"]

/-- Invariant for `test.py`: every stored session's `step` and `mode` are
drawn from the fixed label sets. -/
def TestPy.Inv (σ : TestPy.State) : Prop :=
  ∀ u s, σ u = some s → s.step ∈ TestPy.StepLabels ∧ s.mode ∈ ModeLabels

/-- Invariant for `ai_api.py`: every stored session's `step` and `mode`
are drawn from the fixed label sets. -/
def AiApi.Inv (σ : AiApi.State) : Prop :=
  ∀ u s, σ u = some s → s.step ∈ AiApi.StepLabels ∧ s.mode ∈ ModeLabels

/-- A post-processed string is clean: it contains no double-quote
character, and neither its first nor its last character is whitespace. -/
def Cleaned (l : List Char) : Prop :=
  '"' ∉ l ∧ (∀ c, l.head? = some c → pyIsSpace c = false) ∧
    (∀ c, l.getLast? = some c → pyIsSpace c = false)

/-! Lemmas about the Python string primitives. -/

/-- Every character of a replacement result comes from the scanned string
or from the inserted `new`. -/
theorem pyRepAux_mem {old new : List Char} {a : Char} :
    ∀ {k : Nat} {l : List Char}, a ∈ pyRepAux old new k l → a ∈ l ∨ a ∈ new := by
  intro k l
  induction l generalizing k with
  | nil => intro h; simp [pyRepAux] at h
  | cons c rest ih =>
    intro h
    cases k with
    | succ k' =>
      rcases ih h with h1 | h1
      · exact Or.inl (List.mem_cons_of_mem _ h1)
      · exact Or.inr h1
    | zero =>
      rw [pyRepAux] at h
      split at h
      · rcases List.mem_append.mp h with h1 | h1
        · exact Or.inr h1
        · rcases ih h1 with h2 | h2
          · exact Or.inl (List.mem_cons_of_mem _ h2)
          · exact Or.inr h2
      · rcases List.mem_cons.mp h with h1 | h1
        · exact Or.inl (h1 ▸ List.mem_cons_self _ _)
        · rcases ih h1 with h2 | h2
          · exact Or.inl (List.mem_cons_of_mem _ h2)
          · exact Or.inr h2

/-- Replacing the one-character string `q` by the empty string removes
every occurrence of `q`. -/
theorem pyRepAux_quote_free (q : Char) :
    ∀ (k : Nat) (l : List Char), q ∉ pyRepAux [q] [] k l := by
  intro k l
  induction l generalizing k with
  | nil => simp [pyRepAux]
  | cons c rest ih =>
    cases k with
    | succ k' => exact ih k'
    | zero =>
      by_cases hc : c = q
      · subst hc
        have hcond : ([c] : List Char) ≠ [] ∧ List.isPrefixOf [c] (c :: rest) := by
          refine ⟨by simp, ?_⟩
          simp [List.isPrefixOf]
        rw [pyRepAux, if_pos hcond, List.nil_append]
        exact ih _
      · have hcond : ¬(([q] : List Char) ≠ [] ∧ List.isPrefixOf [q] (c :: rest)) := by
          simp [List.isPrefixOf]
          intro h
          exact absurd h.symm hc
        rw [pyRepAux, if_neg hcond]
        intro hmem
        rcases List.mem_cons.mp hmem with h1 | h1
        · exact hc h1.symm
        · exact ih 0 h1

/-- The first character surviving `dropWhile p` does not satisfy `p`. -/
theorem head?_dropWhile_not (p : Char → Bool) :
    ∀ (l : List Char) (c : Char), (l.dropWhile p).head? = some c → p c = false := by
  intro l
  induction l with
  | nil => intro c h; simp at h
  | cons a rest ih =>
    intro c h
    rw [List.dropWhile_cons] at h
    by_cases hp : p a
    · rw [if_pos hp] at h
      exact ih c h
    · rw [if_neg hp] at h
      simp only [List.head?_cons, Option.some.injEq] at h
      subst h
      exact Bool.eq_false_iff.mpr hp

/-- Stripping returns a subset of the original characters. -/
theorem pyStrip_mem {a : Char} {l : List Char} (h : a ∈ pyStrip l) : a ∈ l := by
  have h1 := (List.dropWhile_sublist pyIsSpace).subset h
  rw [List.mem_reverse] at h1
  have h2 := (List.dropWhile_sublist pyIsSpace).subset h1
  rwa [List.mem_reverse] at h2

/-- The first character of a stripped string is not whitespace. -/
theorem pyStrip_head (l : List Char) (c : Char)
    (h : (pyStrip l).head? = some c) : pyIsSpace c = false :=
  head?_dropWhile_not pyIsSpace _ c h

/-- The last character of a stripped string is not whitespace. -/
theorem pyStrip_last (l : List Char) (c : Char)
    (h : (pyStrip l).getLast? = some c) : pyIsSpace c = false := by
  have hne : (pyStrip l) ≠ [] := by
    intro h0
    rw [h0] at h
    simp at h
  obtain ⟨t, ht⟩ := List.dropWhile_suffix
    (l := (l.reverse.dropWhile pyIsSpace).reverse) (p := pyIsSpace)
  have hne' :
      List.dropWhile pyIsSpace (List.dropWhile pyIsSpace l.reverse).reverse ≠ [] := hne
  have h2 : ((l.reverse.dropWhile pyIsSpace).reverse).getLast? = some c := by
    rw [← ht, List.getLast?_append_of_ne_nil _ hne']
    exact h
  rw [List.getLast?_reverse] at h2
  exact head?_dropWhile_not pyIsSpace _ c h2

/-- Stripping a quote-free string yields a clean string. -/
theorem cleaned_pyStrip {l : List Char} (h : '"' ∉ l) : Cleaned (pyStrip l) :=
  ⟨fun hm => h (pyStrip_mem hm),
   fun c hc => pyStrip_head l c hc,
   fun c hc => pyStrip_last l c hc⟩

/-- Replacement with a quote-free `new` preserves quote-freeness. -/
theorem quote_free_pyReplace {old new l : List Char} (hl : '"' ∉ l)
    (hn : '"' ∉ new) : '"' ∉ pyReplace old new l := fun hm =>
  (pyRepAux_mem hm).elim hl hn

/-- Removing all double quotes yields a quote-free string. -/
theorem quote_free_removal (l : List Char) : '"' ∉ pyReplace ['"'] [] l :=
  pyRepAux_quote_free '"' 0 l

/-! Claim theorems about the HTTP surface and the post-processing. -/

/-- C1 (counterexample): neither file registers a `POST /format-product`
route, so the claimed HTTP operation does not exist; the only registered
route is `GET /health`. -/
theorem C1_no_format_product_route :
    (("POST", "/format-product") ∉ AiApi.routes) ∧
    (("POST", "/format-product") ∉ TestPy.routes) := by decide

/-- C1 (amended): the HTTP interface exposes no `POST /format-product`
operation; the only HTTP route registered in either file is
`GET /health`. -/
theorem C1_only_health_route :
    ∀ m p : String, ((m, p) ∈ AiApi.routes ∨ (m, p) ∈ TestPy.routes) →
      m = "GET" ∧ p = "/health" := by
  intro m p h
  cases h with
  | inl h => simpa [AiApi.routes, Prod.ext_iff] using h
  | inr h => simpa [TestPy.routes, Prod.ext_iff] using h

/-- C1 (witness): the amended route theorem applied to the health route
of `ai_api.py`. -/
theorem C1_only_health_route_witness :
    ("GET" : String) = "GET" ∧ ("/health" : String) = "/health" :=
  C1_only_health_route "GET" "/health" (Or.inl (by decide))

/-- C5 (counterexample): `ai_api.py`'s `GET /health` body is not exactly
`{"status": "ok"}`: it carries an extra `message` field. -/
theorem C5_health_extra_field :
    AiApi.health_response.2 ≠ [("status", "ok")] ∧
    ("message", "Server is awake") ∈ AiApi.health_response.2 := by decide

/-- C5 (amended): both `GET /health` endpoints return status 200 with a
JSON body whose `status` field is `"ok"`; `test.py`'s body is exactly
`{"status": "ok"}`, while `ai_api.py` additionally carries a `message`
field. -/
theorem C5_health_ok :
    AiApi.health_response.1 = 200 ∧ TestPy.health_response.1 = 200 ∧
    AiApi.health_response.2.lookup "status" = some "ok" ∧
    TestPy.health_response.2 = [("status", "ok")] := by decide

/-- C4 (counterexample): the post-processed text can still contain the
literal two-character sequence backslash-n: on the model string
`\"n` (backslash, double quote, `n`) the quote removal splices the
backslash and the `n` together after the escape-sequence replacement has
already run, so the relayed text is exactly the two characters
backslash-n. -/
theorem C4_backslash_n_survives :
    hasSub ['\\', 'n'] (AiApi.run_single_formatter_post ['\\', '"', 'n']) = true ∧
    hasSub ['\\', 'n'] (TestPy.run_single_formatter_post ['\\', '"', 'n']) = true := by
  decide

/-- C4 (amended): for every string returned by the remote model, the text
relayed to the caller contains no double-quote character and has no
leading or trailing whitespace, in each of the six formatter
post-processing pipelines; the original claim's further guarantee that no
literal backslash-n sequence remains does not hold (quote and label
removal can splice one together). -/
theorem C4_post_clean : ∀ s : List Char,
    Cleaned (AiApi.run_single_formatter_post s) ∧
    Cleaned (AiApi.run_combo_formatter_post s) ∧
    Cleaned (AiApi.run_instagram_crew_post s) ∧
    Cleaned (TestPy.run_single_formatter_post s) ∧
    Cleaned (TestPy.run_combo_formatter_post s) ∧
    Cleaned (TestPy.run_instagram_crew_post s) := by
  intro s
  have hempty : ('"' : Char) ∉ ([] : List Char) := by simp
  have hsingle : Cleaned (AiApi.run_single_formatter_post s) :=
    cleaned_pyStrip (quote_free_pyReplace
      (quote_free_pyReplace (quote_free_removal _) hempty) hempty)
  have htsingle : Cleaned (TestPy.run_single_formatter_post s) :=
    cleaned_pyStrip (quote_free_pyReplace
      (quote_free_pyReplace (quote_free_removal _) hempty) hempty)
  exact ⟨hsingle, hsingle, cleaned_pyStrip (quote_free_removal _),
    htsingle, htsingle, cleaned_pyStrip (quote_free_removal _)⟩

/-- C4 (witness): the amended cleanliness theorem evaluated on the model
string `" a "`: the relayed text is `a`, whose head is not whitespace and
which contains no quote. -/
theorem C4_post_clean_witness :
    pyIsSpace 'a' = false ∧ '"' ∉ AiApi.run_single_formatter_post [' ', 'a', ' '] := by
  have h := C4_post_clean [' ', 'a', ' ']
  exact ⟨h.1.2.1 'a' rfl, h.1.1⟩

/-! Lemmas about the session mapping update. -/

/-- Updating a user's entry stores it. -/
theorem setUser_same {α : Type} (σ : Nat → Option α) (u : Nat) (s : α) :
    setUser σ u s u = some s := by simp [setUser]

/-- Updating a user's entry leaves every other user's entry unchanged. -/
theorem setUser_other {α : Type} (σ : Nat → Option α) (u v : Nat) (s : α)
    (h : v ≠ u) : setUser σ u s v = σ v := by simp [setUser, h]

/-- Updating never erases an entry. -/
theorem setUser_ne_none {α : Type} (σ : Nat → Option α) (u v : Nat) (s : α)
    (h : σ v ≠ none) : setUser σ u s v ≠ none := by
  by_cases hv : v = u
  · subst hv; simp [setUser]
  · simpa [setUser, hv] using h

/-- C2: in `test.py`'s chat-bot flow, a user in single or combo mode at
step `"desc"` has the message stored as the session's description and the
step advanced to `"urls"` with no remote-model call; at step `"urls"` the
message is stored as the session's urls and the formatter matching the
mode is invoked exactly once on
`"DATA: " ++ description ++ "\nURLS: " ++ urls`. -/
theorem C2_two_turn_flow :
    ∀ (oracle : Oracle) (u : Nat) (text : String) (σ : TestPy.State)
      (s : TestPy.Session), σ u = some s →
      (s.mode = some "single" ∨ s.mode = some "combo") →
      ((s.step = some "desc" →
          (TestPy.handle_message oracle u text σ).calls = [] ∧
          (TestPy.handle_message oracle u text σ).state u =
            some ⟨some text, s.urls, some "urls", s.mode⟩) ∧
        (∀ d, s.step = some "urls" → s.description = some d →
          (TestPy.handle_message oracle u text σ).calls =
            [((if s.mode = some "single" then "single" else "combo"),
              "DATA: " ++ d ++ "\nURLS: " ++ text)] ∧
          (TestPy.handle_message oracle u text σ).state u =
            some ⟨s.description, some text, none, s.mode⟩)) := by
  intro oracle u text σ s hσ hm
  constructor
  · intro hstep
    simp only [TestPy.handle_message, hσ, hstep]
    rw [if_pos hm]
    simp [setUser_same]
  · intro d hstep hdesc
    simp only [TestPy.handle_message, hσ, hstep]
    rw [if_pos hm]
    simp [setUser_same, hdesc]

/-- C2 (witness): a user at step `"urls"` in single mode with stored
description `"d0"` sends `"u0"`; exactly one single-formatter call on
`"DATA: d0\nURLS: u0"` is made. -/
theorem C2_two_turn_flow_witness :
    (TestPy.handle_message okOracle 1 "u0"
      (fun v => if v = 1 then
        some ⟨some "d0", some "", some "urls", some "single"⟩ else none)).calls =
      [("single", "DATA: d0\nURLS: u0")] := by
  have h := (C2_two_turn_flow okOracle 1 "u0"
    (fun v => if v = 1 then
      some ⟨some "d0", some "", some "urls", some "single"⟩ else none)
    ⟨some "d0", some "", some "urls", some "single"⟩ rfl
    (Or.inl rfl)).2 "d0" rfl rfl
  simpa using h.1

/-- C3: in both files, whenever a text message in an active session makes
a remote-model call and that call raises an exception, the handler
catches it and one of the texts replied to the caller contains the
exception's message (`"Error: " + str(e)` in `test.py`,
`"❌ Error: " + str(e)` in `ai_api.py`); the error is never propagated. -/
theorem C3_error_echoed :
    ∀ (oracle : Oracle) (u : Nat) (text e : String),
      (∀ (σ : TestPy.State) (k inp : String),
        (TestPy.handle_message oracle u text σ).calls = [(k, inp)] →
        oracle k inp = Except.error e →
        ∃ r ∈ (TestPy.handle_message oracle u text σ).replies,
          ∃ pre suf, r = pre ++ e ++ suf) ∧
      (∀ (σ : AiApi.State) (k inp : String),
        (AiApi.handle_message oracle u text σ).calls = [(k, inp)] →
        oracle k inp = Except.error e →
        ∃ r ∈ (AiApi.handle_message oracle u text σ).replies,
          ∃ pre suf, r = pre ++ e ++ suf) := by
  intro oracle u text e
  constructor
  · intro σ k inp hcalls herr
    rcases hσ : σ u with _ | s
    · simp [TestPy.handle_message, hσ] at hcalls
    · rcases hst : s.step with _ | st
      · simp [TestPy.handle_message, hσ, hst] at hcalls
      · by_cases hm : s.mode = some "single" ∨ s.mode = some "combo"
        · by_cases hd : st = "desc"
          · simp [TestPy.handle_message, hσ, hst, hm, hd] at hcalls
          · by_cases hu : st = "urls"
            · simp only [TestPy.handle_message, hσ, hst] at hcalls ⊢
              rw [if_pos hm, if_neg hd, if_pos hu] at hcalls ⊢
              simp only [List.cons.injEq, Prod.mk.injEq, and_true] at hcalls
              obtain ⟨hk, hinp⟩ := hcalls
              rw [← hk, ← hinp] at herr
              simp only [herr]
              exact ⟨"Error: " ++ e, by simp, "Error: ", "",
                by simp [String.append_empty]⟩
            · simp [TestPy.handle_message, hσ, hst, hm, hd, hu] at hcalls
        · by_cases hi : s.mode = some "instagram"
          · simp only [TestPy.handle_message, hσ, hst] at hcalls ⊢
            rw [if_neg hm, if_pos hi] at hcalls ⊢
            simp only [List.cons.injEq, Prod.mk.injEq, and_true] at hcalls
            obtain ⟨hk, hinp⟩ := hcalls
            rw [← hk, ← hinp] at herr
            simp only [herr]
            exact ⟨"Error: " ++ e, by simp, "Error: ", "",
              by simp [String.append_empty]⟩
          · simp [TestPy.handle_message, hσ, hst, hm, hi] at hcalls
  · intro σ k inp hcalls herr
    rcases hσ : σ u with _ | s
    · simp [AiApi.handle_message, hσ] at hcalls
    · rcases hst : s.step with _ | st
      · simp [AiApi.handle_message, hσ, hst] at hcalls
      · simp only [AiApi.handle_message, hσ, hst] at hcalls ⊢
        simp only [List.cons.injEq, Prod.mk.injEq, and_true] at hcalls
        obtain ⟨hk, hinp⟩ := hcalls
        rw [← hk, ← hinp] at herr
        simp only [herr]
        exact ⟨"❌ Error: " ++ e, by simp, "❌ Error: ", "",
          by simp [String.append_empty]⟩

/-- C3 (witness): with an oracle that always raises `"boom"`, a user of
`test.py` at step `"urls"` in single mode receives a reply containing
`"boom"`. -/
theorem C3_error_echoed_witness :
    ∃ r ∈ (TestPy.handle_message errOracle 1 "x"
      (fun v => if v = 1 then
        some ⟨some "d", some "", some "urls", some "single"⟩ else none)).replies,
      ∃ pre suf, r = pre ++ "boom" ++ suf :=
  (C3_error_echoed errOracle 1 "x" "boom").1
    (fun v => if v = 1 then
      some ⟨some "d", some "", some "urls", some "single"⟩ else none)
    "single" "DATA: d\nURLS: x" (by decide) rfl

/-- C9: in both files, a non-command text message from a user with no
session entry, or whose session step is `None`, makes no remote-model
call and leaves the `user_sessions` mapping unchanged. -/
theorem C9_inactive_message_noop :
    ∀ (oracle : Oracle) (u : Nat) (text : String),
      (∀ (σ : TestPy.State),
        (σ u = none ∨ ∃ s, σ u = some s ∧ s.step = none) →
        (TestPy.handle_message oracle u text σ).state = σ ∧
        (TestPy.handle_message oracle u text σ).calls = []) ∧
      (∀ (σ : AiApi.State),
        (σ u = none ∨ ∃ s, σ u = some s ∧ s.step = none) →
        (AiApi.handle_message oracle u text σ).state = σ ∧
        (AiApi.handle_message oracle u text σ).calls = []) := by
  intro oracle u text
  constructor
  · intro σ h
    rcases h with h | ⟨s, hσ, hstep⟩
    · simp [TestPy.handle_message, h]
    · simp [TestPy.handle_message, hσ, hstep]
  · intro σ h
    rcases h with h | ⟨s, hσ, hstep⟩
    · simp [AiApi.handle_message, h]
    · simp [AiApi.handle_message, hσ, hstep]

/-- C9 (witness): a message to the empty mapping changes nothing and
makes no call, in both files. -/
theorem C9_inactive_message_noop_witness :
    (TestPy.handle_message okOracle 1 "hi" TestPy.initState).state =
      TestPy.initState ∧
    (AiApi.handle_message okOracle 1 "hi" AiApi.initState).calls = [] :=
  ⟨((C9_inactive_message_noop okOracle 1 "hi").1 TestPy.initState
      (Or.inl rfl)).1,
   ((C9_inactive_message_noop okOracle 1 "hi").2 AiApi.initState
      (Or.inl rfl)).2⟩

/-- C10: in both files, whenever a text message triggers a remote-model
call — whether the call succeeds or raises — the user's session step is
`None` afterwards, and a message arriving while the step is `None`
triggers no model call. -/
theorem C10_step_cleared :
    ∀ (oracle : Oracle) (u : Nat) (text : String),
      (∀ σ : TestPy.State,
        ((TestPy.handle_message oracle u text σ).calls ≠ [] →
          ∃ s', (TestPy.handle_message oracle u text σ).state u = some s' ∧
            s'.step = none) ∧
        (∀ s, σ u = some s → s.step = none →
          (TestPy.handle_message oracle u text σ).calls = [])) ∧
      (∀ σ : AiApi.State,
        ((AiApi.handle_message oracle u text σ).calls ≠ [] →
          ∃ s', (AiApi.handle_message oracle u text σ).state u = some s' ∧
            s'.step = none) ∧
        (∀ s, σ u = some s → s.step = none →
          (AiApi.handle_message oracle u text σ).calls = [])) := by
  intro oracle u text
  constructor
  · intro σ
    constructor
    · intro hcalls
      rcases hσ : σ u with _ | s
      · simp [TestPy.handle_message, hσ] at hcalls
      · rcases hst : s.step with _ | st
        · simp [TestPy.handle_message, hσ, hst] at hcalls
        · by_cases hm : s.mode = some "single" ∨ s.mode = some "combo"
          · by_cases hd : st = "desc"
            · simp [TestPy.handle_message, hσ, hst, hm, hd] at hcalls
            · by_cases hu : st = "urls"
              · simp only [TestPy.handle_message, hσ, hst]
                rw [if_pos hm, if_neg hd, if_pos hu]
                exact ⟨_, setUser_same σ u _, rfl⟩
              · simp [TestPy.handle_message, hσ, hst, hm, hd, hu] at hcalls
          · by_cases hi : s.mode = some "instagram"
            · simp only [TestPy.handle_message, hσ, hst]
              rw [if_neg hm, if_pos hi]
              exact ⟨_, setUser_same σ u _, rfl⟩
            · simp [TestPy.handle_message, hσ, hst, hm, hi] at hcalls
    · intro s hσ hstep
      simp [TestPy.handle_message, hσ, hstep]
  · intro σ
    constructor
    · intro hcalls
      rcases hσ : σ u with _ | s
      · simp [AiApi.handle_message, hσ] at hcalls
      · rcases hst : s.step with _ | st
        · simp [AiApi.handle_message, hσ, hst] at hcalls
        · simp only [AiApi.handle_message, hσ, hst]
          exact ⟨_, setUser_same σ u _, rfl⟩
    · intro s hσ hstep
      simp [AiApi.handle_message, hσ, hstep]

/-- C10 (witness): an instagram-mode message in `test.py` makes a call,
and the step is `None` afterwards; the resulting session retains its
mode. -/
theorem C10_step_cleared_witness :
    ∃ s', (TestPy.handle_message okOracle 1 "x"
      (fun v => if v = 1 then
        some ⟨none, none, some "insta_single", some "instagram"⟩ else none)).state 1 =
        some s' ∧ s'.step = none :=
  ((C10_step_cleared okOracle 1 "x").1
    (fun v => if v = 1 then
      some ⟨none, none, some "insta_single", some "instagram"⟩ else none)).1
    (by decide)

/-- C6 (counterexample): after a full round trip in `test.py`
(`/start`, selecting single mode, sending the description `"mydesc"`,
then the urls `"myurl"`, with the model call succeeding), the user's
session entry is not discarded: it still holds the collected description
and urls, with only the step reset to `None`. -/
theorem C6_entry_not_discarded :
    TestPy.runOps okOracle
      [Op.start 1, Op.callback 1 "mode_single", Op.message 1 "mydesc",
        Op.message 1 "myurl"] TestPy.initState 1 =
      some ⟨some "mydesc", some "myurl", none, some "single"⟩ := by decide

/-- C6 (amended): after one formatting round trip completes, the user's
session step is reset to `None`, but the per-user entry remains in the
mapping: in `test.py` it retains the collected description (and the urls
just stored), and in `ai_api.py` it retains its mode; the entry is only
overwritten by a later `/start`, reset, or mode selection. -/
theorem C6_step_reset_entry_retained :
    ∀ (oracle : Oracle) (u : Nat) (text : String),
      (∀ (σ : TestPy.State) (s : TestPy.Session), σ u = some s →
        (s.mode = some "single" ∨ s.mode = some "combo") →
        s.step = some "urls" →
        (TestPy.handle_message oracle u text σ).state u =
          some ⟨s.description, some text, none, s.mode⟩) ∧
      (∀ (σ : AiApi.State) (s : AiApi.Session) (st : String), σ u = some s →
        s.step = some st →
        (AiApi.handle_message oracle u text σ).state u = some ⟨none, s.mode⟩) := by
  intro oracle u text
  constructor
  · intro σ s hσ hm hstep
    simp only [TestPy.handle_message, hσ, hstep]
    rw [if_pos hm]
    simp [setUser_same]
  · intro σ s st hσ hstep
    simp only [AiApi.handle_message, hσ, hstep]
    exact setUser_same σ u _

/-- C6 (amended, witness): the retention theorem applied to a concrete
single-mode session at step `"urls"`. -/
theorem C6_step_reset_entry_retained_witness :
    (TestPy.handle_message okOracle 1 "myurl"
      (fun v => if v = 1 then
        some ⟨some "mydesc", some "", some "urls", some "single"⟩ else none)).state 1 =
      some ⟨some "mydesc", some "myurl", none, some "single"⟩ :=
  (C6_step_reset_entry_retained okOracle 1 "myurl").1
    (fun v => if v = 1 then
      some ⟨some "mydesc", some "", some "urls", some "single"⟩ else none)
    ⟨some "mydesc", some "", some "urls", some "single"⟩ rfl (Or.inl rfl) rfl

/-! Frame and monotonicity lemmas for the event step functions. -/

/-- A `test.py` event leaves every entry other than the acting user's
unchanged. -/
theorem TestPy.stepOp_frame_tp (oracle : Oracle) (op : Op) (σ : TestPy.State)
    (v : Nat) (h : v ≠ op.actor) : TestPy.stepOp oracle op σ v = σ v := by
  cases op with
  | start u => exact setUser_other σ u v _ h
  | menu u => exact setUser_other σ u v _ h
  | callback u d =>
    simp only [TestPy.stepOp, TestPy.handle_callback]
    split_ifs <;> first | exact setUser_other σ u v _ h | rfl
  | message u t =>
    simp only [TestPy.stepOp]
    rcases hσ : σ u with _ | s
    · simp [TestPy.handle_message, hσ]
    · rcases hst : s.step with _ | st
      · simp [TestPy.handle_message, hσ, hst]
      · simp only [TestPy.handle_message, hσ, hst]
        split_ifs <;> first | exact setUser_other σ u v _ h | rfl
  | help u => rfl

/-- An `ai_api.py` event leaves every entry other than the acting user's
unchanged. -/
theorem AiApi.stepOp_frame_ai (oracle : Oracle) (op : Op) (σ : AiApi.State)
    (v : Nat) (h : v ≠ op.actor) : AiApi.stepOp oracle op σ v = σ v := by
  cases op with
  | start u => exact setUser_other σ u v _ h
  | menu u => exact setUser_other σ u v _ h
  | callback u d =>
    simp only [AiApi.stepOp, AiApi.handle_callback]
    split_ifs <;> first | exact setUser_other σ u v _ h | rfl
  | message u t =>
    simp only [AiApi.stepOp]
    rcases hσ : σ u with _ | s
    · simp [AiApi.handle_message, hσ]
    · rcases hst : s.step with _ | st
      · simp [AiApi.handle_message, hσ, hst]
      · simp only [AiApi.handle_message, hσ, hst]
        exact setUser_other σ u v _ h
  | help u => rfl

/-- A `test.py` event never erases an entry. -/
theorem TestPy.stepOp_mono_tp (oracle : Oracle) (op : Op) (σ : TestPy.State)
    (v : Nat) (h : σ v ≠ none) : TestPy.stepOp oracle op σ v ≠ none := by
  cases op with
  | start u => exact setUser_ne_none σ u v _ h
  | menu u => exact setUser_ne_none σ u v _ h
  | callback u d =>
    simp only [TestPy.stepOp, TestPy.handle_callback]
    split_ifs <;> first | exact setUser_ne_none σ u v _ h | exact h
  | message u t =>
    simp only [TestPy.stepOp]
    rcases hσ : σ u with _ | s
    · simpa [TestPy.handle_message, hσ] using h
    · rcases hst : s.step with _ | st
      · simpa [TestPy.handle_message, hσ, hst] using h
      · simp only [TestPy.handle_message, hσ, hst]
        split_ifs <;> first | exact setUser_ne_none σ u v _ h | exact h
  | help u => exact h

/-- An `ai_api.py` event never erases an entry. -/
theorem AiApi.stepOp_mono_ai (oracle : Oracle) (op : Op) (σ : AiApi.State)
    (v : Nat) (h : σ v ≠ none) : AiApi.stepOp oracle op σ v ≠ none := by
  cases op with
  | start u => exact setUser_ne_none σ u v _ h
  | menu u => exact setUser_ne_none σ u v _ h
  | callback u d =>
    simp only [AiApi.stepOp, AiApi.handle_callback]
    split_ifs <;> first | exact setUser_ne_none σ u v _ h | exact h
  | message u t =>
    simp only [AiApi.stepOp]
    rcases hσ : σ u with _ | s
    · simpa [AiApi.handle_message, hσ] using h
    · rcases hst : s.step with _ | st
      · simpa [AiApi.handle_message, hσ, hst] using h
      · simp only [AiApi.handle_message, hσ, hst]
        exact setUser_ne_none σ u v _ h
  | help u => exact h

/-- No sequence of `test.py` events erases an entry. -/
theorem TestPy.runOps_mono_tp (oracle : Oracle) (ops : List Op)
    (σ : TestPy.State) (v : Nat) (h : σ v ≠ none) :
    TestPy.runOps oracle ops σ v ≠ none := by
  induction ops generalizing σ with
  | nil => exact h
  | cons op ops ih =>
    exact ih (TestPy.stepOp oracle op σ) (TestPy.stepOp_mono_tp oracle op σ v h)

/-- No sequence of `ai_api.py` events erases an entry. -/
theorem AiApi.runOps_mono_ai (oracle : Oracle) (ops : List Op)
    (σ : AiApi.State) (v : Nat) (h : σ v ≠ none) :
    AiApi.runOps oracle ops σ v ≠ none := by
  induction ops generalizing σ with
  | nil => exact h
  | cons op ops ih =>
    exact ih (AiApi.stepOp oracle op σ) (AiApi.stepOp_mono_ai oracle op σ v h)

/-- C7 (counterexample): a text message from a user with no session entry
neither adds nor overwrites an entry for the acting user's id: after the
message the mapping still has no entry for that user, in both files. -/
theorem C7_message_adds_no_entry :
    (TestPy.handle_message okOracle 1 "hi" TestPy.initState).state 1 = none ∧
    (AiApi.handle_message okOracle 1 "hi" AiApi.initState).state 1 = none := by
  decide

/-- C7 (amended): no operation ever removes a key from `user_sessions`:
over any sequence of `/start`, `/menu`, callback, message and `/help`
events the key set grows monotonically (no eviction), and any write an
event performs targets only the acting user's entry — though the message
handler with no active session writes nothing at all. -/
theorem C7_no_eviction :
    ∀ (oracle : Oracle),
      (∀ (ops : List Op) (σ : TestPy.State) (v : Nat),
        σ v ≠ none → TestPy.runOps oracle ops σ v ≠ none) ∧
      (∀ (ops : List Op) (σ : AiApi.State) (v : Nat),
        σ v ≠ none → AiApi.runOps oracle ops σ v ≠ none) ∧
      (∀ (op : Op) (σ : TestPy.State) (v : Nat),
        TestPy.stepOp oracle op σ v ≠ σ v → v = op.actor) ∧
      (∀ (op : Op) (σ : AiApi.State) (v : Nat),
        AiApi.stepOp oracle op σ v ≠ σ v → v = op.actor) := by
  intro oracle
  refine ⟨TestPy.runOps_mono_tp oracle, AiApi.runOps_mono_ai oracle, ?_, ?_⟩
  · intro op σ v h
    by_contra hne
    exact h (TestPy.stepOp_frame_tp oracle op σ v hne)
  · intro op σ v h
    by_contra hne
    exact h (AiApi.stepOp_frame_ai oracle op σ v hne)

/-- C7 (witness): user 1's entry, created by `/start`, survives a later
message and a reset by user 2. -/
theorem C7_no_eviction_witness :
    TestPy.runOps okOracle [Op.message 2 "hi", Op.callback 2 "reset"]
      (TestPy.start 1 TestPy.initState) 1 ≠ none :=
  (C7_no_eviction okOracle).1 [Op.message 2 "hi", Op.callback 2 "reset"]
    (TestPy.start 1 TestPy.initState) 1 (by decide)

/-! Invariant preservation for the session label sets. -/

/-- Updating with a session whose labels are in range preserves the
`test.py` invariant. -/
theorem TestPy.inv_setUser_tp {σ : TestPy.State} {u : Nat} {s0 : TestPy.Session}
    (h : TestPy.Inv σ) (h1 : s0.step ∈ TestPy.StepLabels)
    (h2 : s0.mode ∈ ModeLabels) : TestPy.Inv (setUser σ u s0) := by
  intro v s hv
  by_cases hvu : v = u
  · subst hvu
    rw [setUser_same] at hv
    obtain rfl : s0 = s := by injection hv
    exact ⟨h1, h2⟩
  · rw [setUser_other σ u v _ hvu] at hv
    exact h v s hv

/-- Updating with a session whose labels are in range preserves the
`ai_api.py` invariant. -/
theorem AiApi.inv_setUser_ai {σ : AiApi.State} {u : Nat} {s0 : AiApi.Session}
    (h : AiApi.Inv σ) (h1 : s0.step ∈ AiApi.StepLabels)
    (h2 : s0.mode ∈ ModeLabels) : AiApi.Inv (setUser σ u s0) := by
  intro v s hv
  by_cases hvu : v = u
  · subst hvu
    rw [setUser_same] at hv
    obtain rfl : s0 = s := by injection hv
    exact ⟨h1, h2⟩
  · rw [setUser_other σ u v _ hvu] at hv
    exact h v s hv

/-- Every `test.py` event preserves the label invariant. -/
theorem TestPy.inv_step_tp (oracle : Oracle) (op : Op) (σ : TestPy.State)
    (h : TestPy.Inv σ) : TestPy.Inv (TestPy.stepOp oracle op σ) := by
  cases op with
  | start u => exact TestPy.inv_setUser_tp h (by decide) (by decide)
  | menu u => exact TestPy.inv_setUser_tp h (by decide) (by decide)
  | callback u d =>
    simp only [TestPy.stepOp, TestPy.handle_callback]
    split_ifs <;>
      first
        | exact TestPy.inv_setUser_tp h (by decide) (by decide)
        | exact h
  | message u t =>
    simp only [TestPy.stepOp]
    rcases hσ : σ u with _ | s
    · simpa [TestPy.handle_message, hσ] using h
    · rcases hst : s.step with _ | st
      · simpa [TestPy.handle_message, hσ, hst] using h
      · obtain ⟨hsl, hml⟩ := h u s hσ
        simp only [TestPy.handle_message, hσ, hst]
        split_ifs <;>
          first
            | exact TestPy.inv_setUser_tp h
                (show (some "urls" : Option String) ∈ TestPy.StepLabels by decide) hml
            | exact TestPy.inv_setUser_tp h
                (show (none : Option String) ∈ TestPy.StepLabels by decide) hml
            | exact h
  | help u => exact h

/-- Every `ai_api.py` event preserves the label invariant. -/
theorem AiApi.inv_step_ai (oracle : Oracle) (op : Op) (σ : AiApi.State)
    (h : AiApi.Inv σ) : AiApi.Inv (AiApi.stepOp oracle op σ) := by
  cases op with
  | start u => exact AiApi.inv_setUser_ai h (by decide) (by decide)
  | menu u => exact AiApi.inv_setUser_ai h (by decide) (by decide)
  | callback u d =>
    simp only [AiApi.stepOp, AiApi.handle_callback]
    split_ifs <;>
      first
        | exact AiApi.inv_setUser_ai h (by decide) (by decide)
        | exact h
  | message u t =>
    simp only [AiApi.stepOp]
    rcases hσ : σ u with _ | s
    · simpa [AiApi.handle_message, hσ] using h
    · rcases hst : s.step with _ | st
      · simpa [AiApi.handle_message, hσ, hst] using h
      · obtain ⟨hsl, hml⟩ := h u s hσ
        simp only [AiApi.handle_message, hσ, hst]
        exact AiApi.inv_setUser_ai h
          (show (none : Option String) ∈ AiApi.StepLabels by decide) hml
  | help u => exact h

/-- C8: in every state reachable from the empty mapping by any sequence
of `/start`, `/menu`, callback, message and `/help` events, each stored
session's `step` is drawn from the fixed finite label set (`None`, the
input/desc label, the urls label, the instagram label — `"input"` being
the only non-`None` step `ai_api.py` uses) and its `mode` from
`{None, "single", "combo", "instagram"}`. -/
theorem C8_step_mode_labels :
    ∀ (oracle : Oracle) (ops : List Op),
      TestPy.Inv (TestPy.runOps oracle ops TestPy.initState) ∧
      AiApi.Inv (AiApi.runOps oracle ops AiApi.initState) := by
  intro oracle ops
  have hinit1 : TestPy.Inv TestPy.initState := by
    intro u s h
    simp [TestPy.initState] at h
  have hinit2 : AiApi.Inv AiApi.initState := by
    intro u s h
    simp [AiApi.initState] at h
  constructor
  · have : ∀ (l : List Op) (σ : TestPy.State), TestPy.Inv σ →
        TestPy.Inv (TestPy.runOps oracle l σ) := by
      intro l
      induction l with
      | nil => exact fun σ h => h
      | cons op ops ih =>
        exact fun σ h => ih (TestPy.stepOp oracle op σ)
          (TestPy.inv_step_tp oracle op σ h)
    exact this ops TestPy.initState hinit1
  · have : ∀ (l : List Op) (σ : AiApi.State), AiApi.Inv σ →
        AiApi.Inv (AiApi.runOps oracle l σ) := by
      intro l
      induction l with
      | nil => exact fun σ h => h
      | cons op ops ih =>
        exact fun σ h => ih (AiApi.stepOp oracle op σ)
          (AiApi.inv_step_ai oracle op σ h)
    exact this ops AiApi.initState hinit2

/-- C8 (witness): the invariant applied to the state reached by selecting
single mode: the stored step and mode labels lie in the fixed sets. -/
theorem C8_step_mode_labels_witness :
    (some "desc" : Option String) ∈ TestPy.StepLabels ∧
    (some "single" : Option String) ∈ ModeLabels :=
  (C8_step_mode_labels okOracle [Op.callback 1 "mode_single"]).1 1
    ⟨some "", some "", some "desc", some "single"⟩ (by decide)
